import Mathlib

/-
Shallow embedding of the hinfosvc HTTP server.

Source files embedded here:
- src/http-processing.c : load_http_request (byte-at-a-time FSM reading the
  request head), parse_http_request (fixed-width request-line parser),
  process_http_request (status/body dispatch and response serialization),
  get_http_datetime, skip_whitespaces;
- src/system-info.c : get_cpu_load core computation over two /proc/stat
  snapshots (the snapshots themselves are modelled as inputs);
- constants from src/http-processing.h and src/system-info.h.

Modelling conventions: C char buffers are lists of byte values (Nat, ASCII
codes); a connection is the finite list of bytes it delivers before the
peer closes (a read(2) transport failure, which makes the C server exit,
is outside this byte-list model); reads past the end of the 31-byte
request buffer, which are undefined behaviour in C, surface as the oob
branch of ParseResult / a none result; the three system probes are
modelled as oracle values handed to process_http_request, mirroring what
the C probe functions return (get_hostname and get_cpu_info leave their
output buffer untouched and return 1 on failure, get_cpu_load returns -1
on failure).
-/

namespace Hinfosvc

abbrev Byte := Nat

/-- Bytes of a Lean string literal (all literals used are ASCII). -/
def strB (s : String) : List Byte := s.data.map Char.toNat

/-- The two-byte line terminator CR LF. -/
def crlf : List Byte := [13, 10]

/-- C isspace in the C locale: space, tab, newline, vertical tab, form feed,
carriage return. -/
def isspace (c : Byte) : Bool := c = 32 || (9 ≤ c && c ≤ 13)

/-- C isalnum in the C locale: decimal digits, uppercase and lowercase
letters. -/
def isalnum (c : Byte) : Bool :=
  (48 ≤ c && c ≤ 57) || (65 ≤ c && c ≤ 90) || (97 ≤ c && c ≤ 122)

/-- http-processing.h: maximum length of the first line of the HTTP
request. -/
abbrev MAX_MSG_LINE_LEN : Nat := 30

/-- http-processing.h: length of the supported HTTP method token GET. -/
abbrev HTTP_METHOD_LEN : Nat := 3

/-- http-processing.h: length of the HTTP version token HTTP/1.1. -/
abbrev HTTP_VERSION_LEN : Nat := 8

/-- http-processing.h: maximum length of a supported HTTP URI,
30 - 3 - 8 = 19. -/
abbrev HTTP_URI_LEN : Nat := MAX_MSG_LINE_LEN - HTTP_METHOD_LEN - HTTP_VERSION_LEN

/-- States of the FSM for loading the HTTP request (enum loading_state in
http-processing.c). -/
inductive LState where
  | firstRow
  | header
  | space
  | value
  | endS
  deriving DecidableEq

/-- Outcome of load_http_request on a clean byte stream: return 0 with the
filled 31-byte request buffer, or return 2 (bad HTTP format). -/
inductive LoadResult where
  | ok (buf : List Byte) : LoadResult
  | malformed : LoadResult
  deriving DecidableEq

/-- The read-one-byte-at-a-time loop of load_http_request: state, the bytes
stored so far in request_buffer, and the remaining stream.  Reaching the
end of the list is read(2) returning 0, which the C code maps to return
value 2.  On success the 31-byte buffer is the stored first line padded
with the NUL bytes the zero-initialized C array keeps. -/
def loadLoop (st : LState) (acc : List Byte) : List Byte → LoadResult
  | [] => LoadResult.malformed
  | c :: rest =>
    match st with
    | LState.firstRow =>
        if c = 10 then loadLoop LState.header acc rest
        else if acc.length < MAX_MSG_LINE_LEN then
          loadLoop LState.firstRow (acc ++ [c]) rest
        else LoadResult.malformed
    | LState.header =>
        if (isalnum c = true ∨ c = 45) ∧ c ≠ 58 then loadLoop LState.header acc rest
        else if c = 58 then loadLoop LState.space acc rest
        else if c = 13 then loadLoop LState.endS acc rest
        else LoadResult.malformed
    | LState.space =>
        if isspace c then loadLoop LState.space acc rest
        else loadLoop LState.value acc rest
    | LState.value =>
        if c ≠ 10 then loadLoop LState.value acc rest
        else loadLoop LState.header acc rest
    | LState.endS =>
        if c = 10 then
          LoadResult.ok (acc ++ List.replicate (MAX_MSG_LINE_LEN + 1 - acc.length) 0)
        else LoadResult.malformed

/-- load_http_request from http-processing.c, over the bytes the connection
delivers. -/
def load_http_request (stream : List Byte) : LoadResult :=
  loadLoop LState.firstRow [] stream

/-- Offset of the first non-whitespace byte of a list, none if every byte
is whitespace (so the C loop would read past the end). -/
def firstNonWS : List Byte → Option Nat
  | [] => none
  | c :: rest =>
    if isspace c then (firstNonWS rest).map (· + 1) else some 0

/-- skip_whitespaces from http-processing.c: advance the index over
whitespace bytes; none models the loop running past the end of the
buffer. -/
def skip_whitespaces (buf : List Byte) (i : Nat) : Option Nat :=
  (firstNonWS (buf.drop i)).map (i + ·)

/-- Read n consecutive bytes starting at index i (the fixed-width method
and version reads); none models a read past the end of the buffer. -/
def takeN (buf : List Byte) (i : Nat) : Nat → Option (List Byte)
  | 0 => some []
  | n + 1 =>
    match buf.get? i with
    | none => none
    | some c => (takeN buf (i + 1) n).map (c :: ·)

/-- The URI-copying loop of parse_http_request: copy bytes while they are
not whitespace, for at most the given capacity; returns the copied bytes
and the index the loop stops at.  none models the isspace read going past
the end of the buffer. -/
def uriGo (buf : List Byte) : Nat → Nat → Option (List Byte × Nat)
  | i, 0 => some ([], i)
  | i, fuel + 1 =>
    match buf.get? i with
    | none => none
    | some c =>
      if isspace c then some ([], i)
      else (uriGo buf (i + 1) fuel).map (fun p => (c :: p.1, p.2))

/-- The data parse_http_request writes back: the status it returns plus
the method, uri and version buffers (bytes actually copied; the C buffers
keep NUL padding after them). -/
structure ParsedReq where
  status : Nat
  method : List Byte
  uri : List Byte
  version : List Byte
  deriving DecidableEq

/-- Result of parse_http_request in a total embedding: a filled ParsedReq,
or oob when the C code would read past the end of the 31-byte request
buffer (undefined behaviour). -/
inductive ParseResult where
  | ok (r : ParsedReq) : ParseResult
  | oob : ParseResult
  deriving DecidableEq

/-- parse_http_request from http-processing.c.  The strcmp checks against
GET and HTTP/1.1 compare the raw fixed-width token bytes: the C buffers
are NUL-terminated right after the token so equality holds exactly when
the raw bytes match. -/
def parse_http_request (buf : List Byte) : ParseResult :=
  match takeN buf 0 HTTP_METHOD_LEN with
  | none => ParseResult.oob
  | some m =>
    if m = strB "GET" then
      match skip_whitespaces buf HTTP_METHOD_LEN with
      | none => ParseResult.oob
      | some i1 =>
        match uriGo buf i1 HTTP_URI_LEN with
        | none => ParseResult.oob
        | some (uri, i2) =>
          match buf.get? i2 with
          | none => ParseResult.oob
          | some c =>
            if isspace c then
              match skip_whitespaces buf i2 with
              | none => ParseResult.oob
              | some i3 =>
                match takeN buf i3 HTTP_VERSION_LEN with
                | none => ParseResult.oob
                | some v =>
                  if v = strB "HTTP/1.1" then ParseResult.ok ⟨200, m, uri, v⟩
                  else ParseResult.ok ⟨505, m, uri, v⟩
            else ParseResult.ok ⟨414, m, uri, []⟩
    else ParseResult.ok ⟨405, m, [], []⟩

/-- A broken-down UTC instant, the fields of struct tm that the strftime
format of get_http_datetime consumes (wday 0 = Sun, mon 0 = Jan, year is
the full year as rendered by the %Y conversion). -/
structure Tm where
  wday : Nat
  mday : Nat
  mon : Nat
  year : Nat
  hour : Nat
  min : Nat
  sec : Nat

/-- Abbreviated weekday names used by the %a conversion of strftime. -/
def wkdNames : List String := ["Sun", "Mon", "Tue", "Wed", "Thu", "Fri", "Sat"]

/-- Abbreviated month names used by the %b conversion of strftime. -/
def monNames : List String :=
  ["Jan", "Feb", "Mar", "Apr", "May", "Jun", "Jul", "Aug", "Sep", "Oct", "Nov", "Dec"]

/-- Decimal rendering of a Nat, as the %d and %u conversions print it. -/
def natDec (n : Nat) : List Byte := strB (toString n)

/-- Decimal rendering of an Int, as the %d conversion prints it (a minus
sign for negative values). -/
def intDec (v : Int) : List Byte := strB (toString v)

/-- Two-digit zero-padded decimal, as the %d, %H, %M, %S strftime
conversions print day and time fields. -/
def dd (n : Nat) : List Byte := [48 + n / 10 % 10, 48 + n % 10]

/-- get_http_datetime from http-processing.c: strftime with format
"%a, %d %b %Y %H:%M:%S" over the gmtime breakdown of the current time.
Note the format string carries no " GMT" suffix (and the 29-byte cap
passed to strftime could not hold one for this format anyway). -/
def get_http_datetime (t : Tm) : List Byte :=
  strB (wkdNames.getD t.wday "") ++ strB ", " ++ dd t.mday ++ strB " " ++
  strB (monNames.getD t.mon "") ++ strB " " ++ natDec t.year ++ strB " " ++
  dd t.hour ++ strB ":" ++ dd t.min ++ strB ":" ++ dd t.sec

/-- Oracle outcomes of the three system probes for one request.
none models the probe failing: get_hostname and get_cpu_info then return 1
leaving their output buffer as the empty string it was initialized to, and
get_cpu_load returns -1. -/
structure Probes where
  hostname : Option (List Byte)
  cpuinfo : Option (List Byte)
  load : Option Int

/-- A C string value: the bytes of a buffer up to the first NUL, which is
what strcmp and sprintf %s consume. -/
def nulTrunc (l : List Byte) : List Byte := l.takeWhile (fun c => c ≠ 0)

/-- The status code, reason phrase and body process_http_request settles on
before serializing. -/
structure RespParts where
  status : Nat
  msg : List Byte
  body : List Byte
  deriving DecidableEq

/-- The status/body dispatch of process_http_request (the if/else chain on
status_code and the strcmp route match on the uri buffer).  The probe
calls get_hostname(data) and get_cpu_info(data) have their return values
discarded by the C code; on failure data keeps its initial empty-string
value.  get_cpu_load() is used directly inside sprintf, so its -1 failure
value is formatted into the body. -/
def dispatch (pr : Probes) (r : ParsedReq) : RespParts :=
  if r.status = 400 then ⟨400, strB "Bad Request", []⟩
  else if r.status = 405 then ⟨405, strB "Method Not Allowed", []⟩
  else if r.status = 414 then ⟨414, strB "URI Too Long", []⟩
  else if r.status = 505 then ⟨505, strB "HTTP Version Not Supported", []⟩
  else
    if nulTrunc r.uri = strB "/hostname" then
      ⟨r.status, strB "OK", (match pr.hostname with | some s => s | none => []) ++ crlf⟩
    else if nulTrunc r.uri = strB "/cpu-name" then
      ⟨r.status, strB "OK", (match pr.cpuinfo with | some s => s | none => []) ++ crlf⟩
    else if nulTrunc r.uri = strB "/load" then
      ⟨r.status, strB "OK",
        intDec (match pr.load with | some v => v | none => -1) ++ strB "%" ++ crlf⟩
    else ⟨404, strB "Not Found", []⟩

/-- The final sprintf of process_http_request: the full serialized HTTP
response.  Content-Length is %d of strlen(response_body), the decimal
length of the very body bytes appended after the blank line. -/
def mkResponse (status : Nat) (msg : List Byte) (datetime : List Byte)
    (body : List Byte) : List Byte :=
  strB "HTTP/1.1 " ++ natDec status ++ strB " " ++ msg ++ crlf ++
  strB "Connection: close" ++ crlf ++
  strB "Date: " ++ datetime ++ crlf ++
  strB "Server: hinfosvc/1.0" ++ crlf ++
  strB "Content-Length: " ++ natDec body.length ++ crlf ++
  strB "Content-Type: text/plain" ++ crlf ++
  crlf ++
  body

/-- process_http_request from http-processing.c over one connection:
load the request head, parse the first line (a load failure other than a
transport error yields status 400 through the same dispatch chain), pick
reason phrase and body, serialize.  The Nat component is the C return
value: 0 here, since the fatal return 1 only happens on a read(2)
transport error, which the clean byte-list connection model excludes.
none models parse_http_request reading past the request buffer (undefined
behaviour, no defined response). -/
def process_http_request (stream : List Byte) (pr : Probes) (t : Tm) :
    Option (Nat × List Byte) :=
  match load_http_request stream with
  | LoadResult.malformed =>
      some (0, mkResponse 400 (strB "Bad Request") (get_http_datetime t) [])
  | LoadResult.ok buf =>
      match parse_http_request buf with
      | ParseResult.oob => none
      | ParseResult.ok r =>
          some (0, mkResponse (dispatch pr r).status (dispatch pr r).msg
            (get_http_datetime t) (dispatch pr r).body)

/-- The closed set of status codes the server can serialize, each with its
fixed reason phrase. -/
def statusTable : List (Nat × List Byte) :=
  [(200, strB "OK"), (400, strB "Bad Request"), (404, strB "Not Found"),
   (405, strB "Method Not Allowed"), (414, strB "URI Too Long"),
   (505, strB "HTTP Version Not Supported")]

/-- The status-code digits of a serialized response: the bytes after
"HTTP/1.1 " up to the following space. -/
def respStatus (resp : List Byte) : List Byte :=
  (resp.drop 9).takeWhile (fun c => c ≠ 32)

/-- Whether pat is an initial segment of xs. -/
def leadSeg : List Byte → List Byte → Bool
  | [], _ => true
  | _ :: _, [] => false
  | p :: ps, x :: xs => p = x && leadSeg ps xs

/-- Whether pat occurs as a contiguous run anywhere in xs. -/
def containsSeq (pat : List Byte) : List Byte → Bool
  | [] => leadSeg pat []
  | x :: xs => leadSeg pat (x :: xs) || containsSeq pat xs

/-- struct proc_stats from system-info.c: one /proc/stat cpu line
snapshot (unsigned long tick counters). -/
structure ProcStats where
  user : Nat
  nice : Nat
  system : Nat
  idle : Nat
  iowait : Nat
  irq : Nat
  softirq : Nat
  steal : Nat
  deriving DecidableEq

/-- Modulus of the 64-bit unsigned long long arithmetic of
get_cpu_load. -/
abbrev W64 : Nat := 2 ^ 64

/-- unsigned long long addition. -/
def addW (a b : Nat) : Nat := (a + b) % W64

/-- unsigned long long subtraction (wraps around). -/
def subW (a b : Nat) : Nat := (a % W64 + W64 - b % W64) % W64

/-- The arithmetic core of get_cpu_load from system-info.c, over the two
/proc/stat snapshots it reads 200 ms apart (the snapshots are inputs of
the model; load_proc_stats failures make the C function return -1 before
this arithmetic runs, so they do not reach it).  The C code divides by
total_delta with no zero guard; the guarded embedding returns none
exactly where the C expression divides by zero (undefined behaviour). -/
def get_cpu_load (prev curr : ProcStats) : Option Nat :=
  let prevIdle := addW prev.idle prev.iowait
  let currIdle := addW curr.idle curr.iowait
  let prevActive :=
    addW (addW (addW (addW (addW prev.user prev.nice) prev.system) prev.irq)
      prev.softirq) prev.steal
  let currActive :=
    addW (addW (addW (addW (addW curr.user curr.nice) curr.system) curr.irq)
      curr.softirq) curr.steal
  let prevTotal := addW prevIdle prevActive
  let currTotal := addW currIdle currActive
  let totalDelta := subW currTotal prevTotal
  let idleDelta := subW currIdle prevIdle
  if totalDelta = 0 then none
  else some (subW totalDelta idleDelta * 100 % W64 / totalDelta)

/-- A fixed UTC instant for concrete runs: Tue, 22 Feb 2022 21:22:19, the
example instant the HTTP_DATETIME_LEN macro comment uses. -/
def t0 : Tm := ⟨2, 22, 1, 2022, 21, 22, 19⟩

/-- Probe oracle where all three probes succeed. -/
def probes0 : Probes :=
  ⟨some (strB "merlin.fit.vutbr.cz"),
   some (strB "Intel(R) Xeon(R) CPU E5-2620 v3 @ 2.40GHz"), some 34⟩

/-- Probe oracle where all three probes fail. -/
def probesFail : Probes := ⟨none, none, none⟩

/-- Connection bytes of GET /teapot HTTP/1.1 with an empty header block. -/
def c1stream : List Byte := strB "GET /teapot HTTP/1.1" ++ [13, 10, 13, 10]

/-- Connection bytes of GET /load HTTP/1.1 with an empty header block. -/
def c2stream : List Byte := strB "GET /load HTTP/1.1" ++ [13, 10, 13, 10]

/-- Request buffer load_http_request builds from c2stream. -/
def c2buf : List Byte := strB "GET /load HTTP/1.1\r" ++ List.replicate 12 0

/-- The first line parsed from c2stream. -/
def c2req : ParsedReq := ⟨200, strB "GET", strB "/load", strB "HTTP/1.1"⟩

/-- Connection bytes of GET /hostname HTTP/1.1 with an empty header
block. -/
def c2hstream : List Byte := strB "GET /hostname HTTP/1.1" ++ [13, 10, 13, 10]

/-- Request buffer load_http_request builds from c2hstream. -/
def c2hbuf : List Byte := strB "GET /hostname HTTP/1.1\r" ++ List.replicate 8 0

/-- The first line parsed from c2hstream. -/
def c2hreq : ParsedReq := ⟨200, strB "GET", strB "/hostname", strB "HTTP/1.1"⟩

/-- Connection bytes whose URI token has 23 non-whitespace bytes: the first
line is 36 bytes long, beyond the 30-byte cap of the request reader. -/
def c3stream : List Byte :=
  strB "GET /aaaaaaaaaaaaaaaaaaaaaa HTTP/1.1" ++ [13, 10, 13, 10]

/-- Connection bytes of a 24-byte first line GET /aaa...a (19 a) whose URI
token has 20 non-whitespace bytes and no version token. -/
def c3wstream : List Byte := strB "GET /aaaaaaaaaaaaaaaaaaa" ++ [13, 10, 13, 10]

/-- Request buffer load_http_request builds from c3wstream. -/
def c3wbuf : List Byte := strB "GET /aaaaaaaaaaaaaaaaaaa\r" ++ List.replicate 6 0

/-- Connection bytes of GET /status HTTP/1.1 with an empty header block. -/
def c4stream : List Byte := strB "GET /status HTTP/1.1" ++ [13, 10, 13, 10]

/-- Connection bytes of PUT /hostname HTTP/1.1 with an empty header
block. -/
def c5stream : List Byte := strB "PUT /hostname HTTP/1.1" ++ [13, 10, 13, 10]

/-- Request buffer load_http_request builds from c5stream. -/
def c5buf : List Byte := strB "PUT /hostname HTTP/1.1\r" ++ List.replicate 8 0

/-- Connection bytes of OPTIONS /aaaaaaaaaaaaaaaaaaaaaaa HTTP/1.1: method
token OPT and a 41-byte first line, beyond the 30-byte cap. -/
def cex5stream : List Byte :=
  strB "OPTIONS /aaaaaaaaaaaaaaaaaaaaaaa HTTP/1.1" ++ [13, 10, 13, 10]

/-- Connection bytes of a request head that is cut off after the first
line: the stream closes before the terminating blank line. -/
def c6stream : List Byte := strB "GET / HTTP/1.1" ++ [13, 10]

/-- Connection bytes of GET /metrics HTTP/1.1 with an empty header
block. -/
def c7stream : List Byte := strB "GET /metrics HTTP/1.1" ++ [13, 10, 13, 10]

/-- Request buffer load_http_request builds from c7stream. -/
def c7buf : List Byte := strB "GET /metrics HTTP/1.1\r" ++ List.replicate 9 0

/-- The first line parsed from c7stream. -/
def c7req : ParsedReq := ⟨200, strB "GET", strB "/metrics", strB "HTTP/1.1"⟩

/-- Connection bytes of GET /cpu-name HTTP/1.1 with an empty header
block. -/
def c8stream : List Byte := strB "GET /cpu-name HTTP/1.1" ++ [13, 10, 13, 10]

/-- Connection bytes of a 30-byte first line GET followed by 27 space
bytes: it fits the line cap and its trailing whitespace runs to the end of
the stored line. -/
def c9stream : List Byte := strB "GET" ++ List.replicate 27 32 ++ [10, 13, 10]

/-- Request buffer load_http_request builds from c9stream. -/
def c9buf : List Byte := strB "GET" ++ List.replicate 27 32 ++ [0]

/-- A /proc/stat snapshot with the sample tick values quoted in the
load_proc_stats comment. -/
def stats0 : ProcStats := ⟨74608, 2520, 24433, 1117073, 6176, 4054, 0, 0⟩

/-- The full wire bytes the server sends for c4stream at instant t0.  Note
the Date header value carries no " GMT" suffix. -/
def c4resp : List Byte := strB "HTTP/1.1 404 Not Found\r\nConnection: close\r\nDate: Tue, 22 Feb 2022 21:22:19\r\nServer: hinfosvc/1.0\r\nContent-Length: 0\r\nContent-Type: text/plain\r\n\r\n"

/-- If the next fuel bytes at the loop index all exist and are not
whitespace, the URI loop copies exactly fuel bytes and stops right after
them. -/
theorem uriGo_full (buf : List Byte) :
    ∀ (fuel i : Nat),
      (∀ k, k < fuel → ∃ c, buf.get? (i + k) = some c ∧ isspace c = false) →
      ∃ l, uriGo buf i fuel = some (l, i + fuel) := by
  intro fuel
  induction fuel with
  | zero => intro i _; exact ⟨[], rfl⟩
  | succ n ih =>
    intro i h
    obtain ⟨c, hc, hsp⟩ := h 0 (Nat.succ_pos n)
    have h' : ∀ k, k < n → ∃ c, buf.get? (i + 1 + k) = some c ∧ isspace c = false := by
      intro k hk
      have hx := h (k + 1) (by omega)
      have : i + (k + 1) = i + 1 + k := by omega
      rw [this] at hx
      exact hx
    obtain ⟨l, hl⟩ := ih (i + 1) h'
    refine ⟨c :: l, ?_⟩
    have hstep : i + (n + 1) = i + 1 + n := by omega
    simp only [uriGo]
    rw [Nat.add_zero] at hc
    rw [hc]
    simp [hsp, hl, hstep]

/-- parse_http_request only ever returns the status codes 405, 414, 505
and 200. -/
theorem parse_status_mem (buf : List Byte) (r : ParsedReq)
    (h : parse_http_request buf = ParseResult.ok r) :
    r.status = 405 ∨ r.status = 414 ∨ r.status = 505 ∨ r.status = 200 := by
  unfold parse_http_request at h
  iterate 12 (all_goals (try split at h))
  all_goals (cases h <;> simp)

/-- For the statuses parse_http_request can return (and the 400 the loader
injects), the dispatch chain picks a pair from the closed status table. -/
theorem dispatch_mem (pr : Probes) (r : ParsedReq)
    (h : r.status = 400 ∨ r.status = 405 ∨ r.status = 414 ∨ r.status = 505 ∨
      r.status = 200) :
    ((dispatch pr r).status, (dispatch pr r).msg) ∈ statusTable := by
  unfold dispatch
  rcases h with h | h | h | h | h
  all_goals rw [h]
  all_goals norm_num
  all_goals (try (split <;> try split <;> try split))
  all_goals simp [statusTable]

/-- Every defined result of process_http_request is return code 0 together
with a response serialized by the single sprintf skeleton. -/
theorem process_eq (bs : List Byte) (pr : Probes) (t : Tm) (rc : Nat)
    (resp : List Byte)
    (h : process_http_request bs pr t = some (rc, resp)) :
    rc = 0 ∧ ∃ c m b, resp = mkResponse c m (get_http_datetime t) b := by
  unfold process_http_request at h
  split at h
  · simp only [Option.some.injEq, Prod.mk.injEq] at h
    exact ⟨h.1.symm, 400, strB "Bad Request", [], h.2.symm⟩
  · split at h
    · exact absurd h (by simp)
    · rename_i buf _ r _
      simp only [Option.some.injEq, Prod.mk.injEq] at h
      exact ⟨h.1.symm, (dispatch pr r).status, (dispatch pr r).msg,
        (dispatch pr r).body, h.2.symm⟩

/-- C1: for every request that is processed to a serialized response, the
decimal value of the Content-Length header equals the exact byte length of
the body that follows the blank line. -/
theorem content_length_matches_body (bs : List Byte) (pr : Probes) (t : Tm)
    (rc : Nat) (resp : List Byte)
    (h : process_http_request bs pr t = some (rc, resp)) :
    ∃ hd body, resp = hd ++ strB "Content-Length: " ++ natDec body.length ++
      crlf ++ strB "Content-Type: text/plain" ++ crlf ++ crlf ++ body := by
  obtain ⟨-, c, m, b, rfl⟩ := process_eq bs pr t rc resp h
  refine ⟨strB "HTTP/1.1 " ++ natDec c ++ strB " " ++ m ++ crlf ++
    strB "Connection: close" ++ crlf ++ strB "Date: " ++ get_http_datetime t ++
    crlf ++ strB "Server: hinfosvc/1.0" ++ crlf, b, ?_⟩
  simp [mkResponse, List.append_assoc]

/-- C1 witness: the Content-Length decomposition at the concrete request
GET /teapot HTTP/1.1, whose response is a 404 with empty body. -/
theorem content_length_matches_body_witness :
    ∃ hd body,
      mkResponse 404 (strB "Not Found") (get_http_datetime t0) [] =
        hd ++ strB "Content-Length: " ++ natDec body.length ++ crlf ++
        strB "Content-Type: text/plain" ++ crlf ++ crlf ++ body :=
  content_length_matches_body c1stream probes0 t0 0
    (mkResponse 404 (strB "Not Found") (get_http_datetime t0) []) (by decide)

/-- C2 counterexample: with all probes failing, GET /load is answered with
return code 0 (no fatal error) and a 200 response whose body serializes
the -1 failure value of get_cpu_load as -1% — the probe failure is neither
fatal nor withheld from the HTTP response. -/
theorem probe_error_not_fatal_cex :
    process_http_request c2stream probesFail t0 =
      some (0, mkResponse 200 (strB "OK") (get_http_datetime t0) (strB "-1%" ++ crlf)) ∧
    containsSeq (strB "-1%")
      (mkResponse 200 (strB "OK") (get_http_datetime t0) (strB "-1%" ++ crlf)) = true :=
  ⟨by decide, by decide⟩

/-- C2 amended: probe errors are not fatal for any of the three probes;
for every accepted request parsed to status 200 with all probes failing,
process_http_request still reports success (0) and a 200 OK response:
the discarded get_hostname and get_cpu_info failures leave the body as
just the line terminator, and the -1 error value of get_cpu_load is
serialized into the body as -1%. -/
theorem probe_error_ignored (bs : List Byte) (pr : Probes) (t : Tm)
    (buf : List Byte) (r : ParsedReq)
    (hl : load_http_request bs = LoadResult.ok buf)
    (hp : parse_http_request buf = ParseResult.ok r)
    (hs : r.status = 200)
    (hh : pr.hostname = none)
    (hcp : pr.cpuinfo = none)
    (hld : pr.load = none) :
    (nulTrunc r.uri = strB "/hostname" →
      process_http_request bs pr t =
        some (0, mkResponse 200 (strB "OK") (get_http_datetime t) crlf)) ∧
    (nulTrunc r.uri = strB "/cpu-name" →
      process_http_request bs pr t =
        some (0, mkResponse 200 (strB "OK") (get_http_datetime t) crlf)) ∧
    (nulTrunc r.uri = strB "/load" →
      process_http_request bs pr t =
        some (0, mkResponse 200 (strB "OK") (get_http_datetime t)
          (strB "-1%" ++ crlf))) := by
  refine ⟨fun hu => ?_, fun hu => ?_, fun hu => ?_⟩
  · have hd : dispatch pr r = ⟨200, strB "OK", crlf⟩ := by
      unfold dispatch
      rw [hs, hu, hh, hcp, hld]
      norm_num
    simp [process_http_request, hl, hp, hd]
  · have hd : dispatch pr r = ⟨200, strB "OK", crlf⟩ := by
      unfold dispatch
      rw [hs, hu, hh, hcp, hld]
      norm_num
    simp [process_http_request, hl, hp, hd]
  · have hd : dispatch pr r = ⟨200, strB "OK", strB "-1%" ++ crlf⟩ := by
      unfold dispatch
      rw [hs, hu, hh, hcp, hld]
      norm_num
      all_goals decide
    simp [process_http_request, hl, hp, hd]

/-- C2 witness: the amended statement at the concrete requests
GET /hostname HTTP/1.1 and GET /load HTTP/1.1, both with all probes
failing: the first is answered 200 OK with the bare line terminator as
body, the second 200 OK with body -1%. -/
theorem probe_error_ignored_witness :
    process_http_request c2hstream probesFail t0 =
      some (0, mkResponse 200 (strB "OK") (get_http_datetime t0) crlf) ∧
    process_http_request c2stream probesFail t0 =
      some (0, mkResponse 200 (strB "OK") (get_http_datetime t0) (strB "-1%" ++ crlf)) :=
  ⟨(probe_error_ignored c2hstream probesFail t0 c2hbuf c2hreq (by decide) (by decide)
      (by decide) rfl rfl rfl).1 (by decide),
   (probe_error_ignored c2stream probesFail t0 c2buf c2req (by decide) (by decide)
      (by decide) rfl rfl rfl).2.2 (by decide)⟩

/-- C3 counterexample: the request GET /aaaaaaaaaaaaaaaaaaaaaa HTTP/1.1
has a URI token of 23 non-whitespace bytes, beyond the 19-byte capacity,
yet its response status is 400, not 414: its 36-byte first line bursts the
30-byte line cap of the request reader first. -/
theorem uri_too_long_cex :
    process_http_request c3stream probes0 t0 =
      some (0, mkResponse 400 (strB "Bad Request") (get_http_datetime t0) []) ∧
    respStatus (mkResponse 400 (strB "Bad Request") (get_http_datetime t0) []) ≠
      strB "414" :=
  ⟨by decide, by decide⟩

/-- C3 amended: for every request accepted by the request reader whose
method token is GET and whose URI position is followed by 20 in-buffer
non-whitespace bytes (the URI token exceeds the 19-byte capacity before a
separating whitespace), the response status is 414. -/
theorem uri_too_long_within_cap (bs : List Byte) (pr : Probes) (t : Tm)
    (buf : List Byte) (s : Nat)
    (hl : load_http_request bs = LoadResult.ok buf)
    (hm : takeN buf 0 HTTP_METHOD_LEN = some (strB "GET"))
    (hskip : skip_whitespaces buf HTTP_METHOD_LEN = some s)
    (hlong : ∀ k, k < HTTP_URI_LEN + 1 →
      ∃ c, buf.get? (s + k) = some c ∧ isspace c = false) :
    process_http_request bs pr t =
      some (0, mkResponse 414 (strB "URI Too Long") (get_http_datetime t) []) := by
  obtain ⟨l, hu⟩ := uriGo_full buf HTTP_URI_LEN s
    (fun k hk => hlong k (Nat.lt_succ_of_lt hk))
  obtain ⟨c, hc, hsp⟩ := hlong HTTP_URI_LEN (Nat.lt_succ_self _)
  have hp : parse_http_request buf = ParseResult.ok ⟨414, strB "GET", l, []⟩ := by
    simp only [parse_http_request, hm, hskip, hu, hc]
    simp [hsp]
  have hd : dispatch pr ⟨414, strB "GET", l, []⟩ =
      ⟨414, strB "URI Too Long", []⟩ := by
    unfold dispatch
    norm_num
  simp [process_http_request, hl, hp, hd]

/-- C3 witness: the amended statement at the concrete request whose
24-byte first line GET /aaaaaaaaaaaaaaaaaaa fits the cap and carries a
20-byte URI token. -/
theorem uri_too_long_within_cap_witness :
    process_http_request c3wstream probes0 t0 =
      some (0, mkResponse 414 (strB "URI Too Long") (get_http_datetime t0) []) :=
  uri_too_long_within_cap c3wstream probes0 t0 c3wbuf 4 (by decide) (by decide)
    (by decide) (by decide)

/-- C4: evaluated at the failing input GET /status HTTP/1.1 at the instant
Tue, 22 Feb 2022 21:22:19 UTC, the serialized response has exactly the
fixed header order the claim lists, but its Date header value is
"Tue, 22 Feb 2022 21:22:19" with no " GMT" suffix anywhere in the
response: the strftime format of get_http_datetime lacks the suffix the
HTTP_DATETIME_LEN macro comment documents. -/
theorem date_header_lacks_gmt :
    process_http_request c4stream probes0 t0 = some (0, c4resp) ∧
    containsSeq (strB " GMT") c4resp = false :=
  ⟨by decide, by decide⟩

/-- C5 amended: for every request accepted by the request reader whose
3-byte method token is not exactly GET, the response status is 405
regardless of the URI and version tokens; the method field is filled for
inspection and the uri and version fields stay empty because parsing
stops there.  (Requests whose first line bursts the 30-byte cap are
instead rejected with 400 by the reader before the method is examined.) -/
theorem non_get_method_405 (bs : List Byte) (pr : Probes) (t : Tm)
    (buf : List Byte) (m : List Byte)
    (hl : load_http_request bs = LoadResult.ok buf)
    (hm : takeN buf 0 HTTP_METHOD_LEN = some m)
    (hne : m ≠ strB "GET") :
    parse_http_request buf = ParseResult.ok ⟨405, m, [], []⟩ ∧
    process_http_request bs pr t =
      some (0, mkResponse 405 (strB "Method Not Allowed") (get_http_datetime t) []) := by
  have hp : parse_http_request buf = ParseResult.ok ⟨405, m, [], []⟩ := by
    simp [parse_http_request, hm, hne]
  refine ⟨hp, ?_⟩
  have hd : dispatch pr ⟨405, m, [], []⟩ = ⟨405, strB "Method Not Allowed", []⟩ := by
    unfold dispatch
    norm_num
  simp [process_http_request, hl, hp, hd]

/-- C5 counterexample to the unrestricted claim: the request
OPTIONS /aaaaaaaaaaaaaaaaaaaaaaa HTTP/1.1 has method token OPT, not GET,
yet its response status is 400, not 405, because its 41-byte first line
bursts the 30-byte cap of the request reader. -/
theorem non_get_method_405_cex :
    process_http_request cex5stream probes0 t0 =
      some (0, mkResponse 400 (strB "Bad Request") (get_http_datetime t0) []) ∧
    respStatus (mkResponse 400 (strB "Bad Request") (get_http_datetime t0) []) ≠
      strB "405" :=
  ⟨by decide, by decide⟩

/-- C5 witness: the amended statement at the concrete request
PUT /hostname HTTP/1.1. -/
theorem non_get_method_405_witness :
    parse_http_request c5buf = ParseResult.ok ⟨405, strB "PUT", [], []⟩ ∧
    process_http_request c5stream probes0 t0 =
      some (0, mkResponse 405 (strB "Method Not Allowed") (get_http_datetime t0) []) :=
  non_get_method_405 c5stream probes0 t0 c5buf (strB "PUT") (by decide) (by decide)
    (by decide)

/-- C6: every byte stream the request reader classifies Malformed (end of
stream before the head is terminated, an invalid header-name byte, a byte
other than line feed after the final carriage return, all of which return
2 from load_http_request) is answered with status 400 Bad Request and
return code 0, so the process does not terminate on protocol errors. -/
theorem malformed_maps_to_400 (bs : List Byte) (pr : Probes) (t : Tm)
    (hl : load_http_request bs = LoadResult.malformed) :
    process_http_request bs pr t =
      some (0, mkResponse 400 (strB "Bad Request") (get_http_datetime t) []) := by
  simp [process_http_request, hl]

/-- C6 witness: the concrete stream GET / HTTP/1.1 CR LF that closes
before the terminating blank line. -/
theorem malformed_maps_to_400_witness :
    process_http_request c6stream probes0 t0 =
      some (0, mkResponse 400 (strB "Bad Request") (get_http_datetime t0) []) :=
  malformed_maps_to_400 c6stream probes0 t0 (by decide)

/-- C7: every accepted request that parses to status 200 (method GET,
version HTTP/1.1, URI within capacity) whose URI is none of /hostname,
/cpu-name, /load is answered with status 404 Not Found and an empty body
(the serialized response carries zero bytes after the blank line). -/
theorem unknown_uri_404_empty_body (bs : List Byte) (pr : Probes) (t : Tm)
    (buf : List Byte) (r : ParsedReq)
    (hl : load_http_request bs = LoadResult.ok buf)
    (hp : parse_http_request buf = ParseResult.ok r)
    (hs : r.status = 200)
    (h1 : nulTrunc r.uri ≠ strB "/hostname")
    (h2 : nulTrunc r.uri ≠ strB "/cpu-name")
    (h3 : nulTrunc r.uri ≠ strB "/load") :
    process_http_request bs pr t =
      some (0, mkResponse 404 (strB "Not Found") (get_http_datetime t) []) := by
  have hd : dispatch pr r = ⟨404, strB "Not Found", []⟩ := by
    unfold dispatch
    rw [hs]
    norm_num
    simp [h1, h2, h3]
  simp [process_http_request, hl, hp, hd]

/-- C7 witness: the concrete request GET /metrics HTTP/1.1. -/
theorem unknown_uri_404_empty_body_witness :
    process_http_request c7stream probes0 t0 =
      some (0, mkResponse 404 (strB "Not Found") (get_http_datetime t0) []) :=
  unknown_uri_404_empty_body c7stream probes0 t0 c7buf c7req (by decide) (by decide)
    (by decide) (by decide) (by decide) (by decide)

/-- C8: every serialized response carries a status code from the closed
set {200, 400, 404, 405, 414, 505} paired with its fixed reason phrase
from statusTable; no other status or reason is ever produced. -/
theorem status_codes_closed_set (bs : List Byte) (pr : Probes) (t : Tm)
    (rc : Nat) (resp : List Byte)
    (h : process_http_request bs pr t = some (rc, resp)) :
    ∃ c m body, (c, m) ∈ statusTable ∧
      resp = mkResponse c m (get_http_datetime t) body := by
  unfold process_http_request at h
  revert h
  cases hload : load_http_request bs with
  | ok buf =>
      dsimp only
      cases hp : parse_http_request buf with
      | ok r =>
          intro h
          simp only [Option.some.injEq, Prod.mk.injEq] at h
          refine ⟨(dispatch pr r).status, (dispatch pr r).msg, (dispatch pr r).body,
            dispatch_mem pr r ?_, h.2.symm⟩
          rcases parse_status_mem buf r hp with h' | h' | h' | h' <;> simp [h']
      | oob => intro h; exact absurd h (by simp)
  | malformed =>
      dsimp only
      intro h
      simp only [Option.some.injEq, Prod.mk.injEq] at h
      exact ⟨400, strB "Bad Request", [], by simp [statusTable], h.2.symm⟩

set_option maxRecDepth 4000 in
/-- C8 witness: the closed-set property at the concrete request
GET /cpu-name HTTP/1.1 with succeeding probes. -/
theorem status_codes_closed_set_witness :
    ∃ c m body, (c, m) ∈ statusTable ∧
      mkResponse 200 (strB "OK") (get_http_datetime t0)
        (strB "Intel(R) Xeon(R) CPU E5-2620 v3 @ 2.40GHz" ++ crlf) =
      mkResponse c m (get_http_datetime t0) body :=
  status_codes_closed_set c8stream probes0 t0 0
    (mkResponse 200 (strB "OK") (get_http_datetime t0)
      (strB "Intel(R) Xeon(R) CPU E5-2620 v3 @ 2.40GHz" ++ crlf)) (by decide)

/-- C9: a 30-byte first line that fits the line cap, GET followed by 27
space bytes, is accepted by the request reader, and on its buffer the
parser runs past the end of the 31-byte NUL-terminated request buffer:
the out-of-range branch of parse_http_request is reached, so the whole
pipeline has no defined response for this input. -/
theorem parse_oob_reachable :
    load_http_request c9stream = LoadResult.ok c9buf ∧
    parse_http_request c9buf = ParseResult.oob ∧
    process_http_request c9stream probesFail t0 = none :=
  ⟨by decide, by decide, by decide⟩

/-- C10: in get_cpu_load, two identical /proc/stat snapshots give
total_delta = 0 and the unguarded division of the C code divides by zero:
the error branch of the guarded embedding is reached at this concrete pair
of snapshot values. -/
theorem cpu_load_div_by_zero : get_cpu_load stats0 stats0 = none := by decide

end Hinfosvc
